import Mathlib

/-!
# Verification of the flight price-prediction and filtering pipeline

A shallow embedding of the core pipeline of `app.py`:
`get_time_slot`, `recommend_flights` (query matching, feature enrichment,
two-stage price prediction, sorting, truncation), the post-filters of the
`flight-details` route, and the facet computation of the `get-filters` route.

Modelling conventions:
* Python `str` is Lean `String`; the string operations used by the code
  (`lower`, `strip`, `split`, `replace`, `in`) are re-implemented
  structurally on `String.data` so that they evaluate by kernel reduction.
  The city, class and slot strings handled by the program are ASCII, so the
  ASCII `Char.toLower` matches Python `str.lower` on this domain.
* Python floats are modelled as `ℚ`.  `round(x, 2)` (numpy round-half-even)
  is `round2`, `int(x)` (truncation toward zero) is `pyIntTrunc`; both are
  written on `num`/`den` directly so that they evaluate by kernel reduction.
* `datetime.date` is the proleptic Gregorian calendar: `parseDate` models
  `datetime.strptime(s, "%Y-%m-%d")`, `rataDie` the day ordinal, and date
  subtraction / `weekday()` are derived from it (rata die 1 = 0001-01-01,
  a Monday).
* Request-level `None` arguments are `Option.none`; exceptions that escape
  `recommend_flights` are modelled as `Except.error`, and the HTTP-level
  outcomes of `get_filters` by `HttpResult` (`ok` / `clientError` for an
  explicit 400 response / `exn` for an uncaught exception).
* The trained regressors are opaque collaborators: functions
  `Features → ℚ` carried in the context `Ctx`, together with the dataset
  and the holiday map, all loaded once at startup.
* The `aircraft` and terminal display columns are assigned by
  `random.choice` in the source; they are presentation noise with no
  deterministic value and are not part of the embedded record.
-/

/-! ## Python string primitives -/

/-- Python `str.lower()` (ASCII domain). -/
def pyLower (s : String) : String := ⟨s.data.map Char.toLower⟩

/-- Drop leading whitespace of a character list. -/
def dropLeadingWs (l : List Char) : List Char := l.dropWhile Char.isWhitespace

/-- Python `str.strip()`: remove leading and trailing whitespace. -/
def pyStrip (s : String) : String :=
  ⟨(dropLeadingWs (dropLeadingWs s.data.reverse).reverse)⟩

/-- Worker for `pySplit`: split a character list at every occurrence of `sep`. -/
def splitCharAux (sep : Char) : List Char → List Char → List (List Char)
  | [], acc => [acc.reverse]
  | c :: cs, acc =>
    if c = sep then acc.reverse :: splitCharAux sep cs []
    else splitCharAux sep cs (c :: acc)

/-- Python `str.split(sep)` for a one-character separator (empty parts kept). -/
def pySplit (s : String) (sep : Char) : List String :=
  (splitCharAux sep s.data []).map String.mk

/-- Python `str.split(sep)[0]`. -/
def pyHeadSplit (s : String) (sep : Char) : String :=
  match pySplit s sep with
  | [] => ""
  | x :: _ => x

/-- Python `str.replace(" ", "_")` (one-character pattern, so a plain map). -/
def pyReplaceSpaceUnderscore (s : String) : String :=
  ⟨s.data.map (fun c => if c = ' ' then '_' else c)⟩

/-- Value of a list of decimal digit characters. -/
def digitsToNat (l : List Char) : Nat :=
  l.foldl (fun n c => 10 * n + (c.toNat - 48)) 0

/-- Python `int(s)` on a decimal string: strip whitespace, optional sign,
then decimal digits.  (Underscore digit grouping is not modelled; no input
handled by the program uses it.) -/
def pyParseInt (s : String) : Option Int :=
  let t := (pyStrip s).data
  let signAndDigits : Int × List Char :=
    match t with
    | '-' :: rest => (-1, rest)
    | '+' :: rest => (1, rest)
    | rest => (1, rest)
  if signAndDigits.2 ≠ [] ∧ signAndDigits.2.all Char.isDigit then
    some (signAndDigits.1 * (digitsToNat signAndDigits.2 : Int))
  else none

/-- Decimal rendering of `n`, left-padded with zeros to width `w`. -/
def padNum (w n : Nat) : String :=
  ⟨List.replicate (w - (Nat.repr n).length) '0' ++ (Nat.repr n).data⟩

/-! ## Python numeric primitives on `ℚ` -/

/-- Python `int(x)`: truncation toward zero, written on `num`/`den` so that
it evaluates by kernel reduction. -/
def pyIntTrunc (q : ℚ) : Int := Int.tdiv q.num q.den

/-- Round `n / d` (with `d > 0`) to the nearest integer, ties to even:
the rounding used by `Series.round`. -/
def pyRoundInt (n : Int) (d : Nat) : Int :=
  let dI : Int := (d : Int)
  let q := Int.ediv n dI
  let r := Int.emod n dI
  if 2 * r < dI then q
  else if dI < 2 * r then q + 1
  else if Int.emod q 2 = 0 then q else q + 1

/-- `round(x, 2)`: round to two decimal places, half to even.  (The binary
float tie cases of numpy are abstracted to exact rational ties.) -/
def round2 (q : ℚ) : ℚ := mkRat (pyRoundInt (q.num * 100) q.den) 100

/-- Python `min` of a nonempty list (`0` on `[]`, never used there). -/
def qminList (l : List ℚ) : ℚ :=
  match l with
  | [] => 0
  | p :: ps => ps.foldl min p

/-- Python `max` of a nonempty list (`0` on `[]`, never used there). -/
def qmaxList (l : List ℚ) : ℚ :=
  match l with
  | [] => 0
  | p :: ps => ps.foldl max p

/-! ## Dates (`datetime.date`, proleptic Gregorian) -/

/-- A parsed calendar date. -/
structure PyDate where
  y : Nat
  m : Nat
  d : Nat
deriving DecidableEq, Repr

/-- Gregorian leap year. -/
def isLeap (y : Nat) : Bool := (y % 4 = 0 ∧ y % 100 ≠ 0) ∨ y % 400 = 0

/-- Days in month `m` (1-12) of a (non-)leap year. -/
def monthDays (leap : Bool) (m : Nat) : Nat :=
  match m with
  | 1 => 31 | 2 => if leap then 29 else 28 | 3 => 31 | 4 => 30
  | 5 => 31 | 6 => 30 | 7 => 31 | 8 => 31
  | 9 => 30 | 10 => 31 | 11 => 30 | 12 => 31
  | _ => 0

/-- Days in the months strictly before `m` in a year. -/
def daysBeforeMonth (leap : Bool) (m : Nat) : Nat :=
  (List.range (m - 1)).foldl (fun acc i => acc + monthDays leap (i + 1)) 0

/-- Rata die ordinal of a date: 0001-01-01 ↦ 1 (a Monday). -/
def rataDie (t : PyDate) : Nat :=
  365 * (t.y - 1) + (t.y - 1) / 4 + (t.y - 1) / 400 - (t.y - 1) / 100
    + daysBeforeMonth (isLeap t.y) t.m + t.d

/-- `datetime.strptime(s, "%Y-%m-%d").date()`: `%Y` is 1-4 digits, `%m` and
`%d` 1-2 digits, and the assembled date must be a valid calendar date with
year at least 1.  Returns `none` where Python raises `ValueError`. -/
def parseDate (s : String) : Option PyDate :=
  match pySplit s '-' with
  | [ys, ms, ds] =>
    if ys.data ≠ [] ∧ ys.data.length ≤ 4 ∧ ys.data.all Char.isDigit
        ∧ ms.data ≠ [] ∧ ms.data.length ≤ 2 ∧ ms.data.all Char.isDigit
        ∧ ds.data ≠ [] ∧ ds.data.length ≤ 2 ∧ ds.data.all Char.isDigit then
      let y := digitsToNat ys.data
      let m := digitsToNat ms.data
      let d := digitsToNat ds.data
      if 1 ≤ y ∧ y ≤ 9999 ∧ 1 ≤ m ∧ m ≤ 12 ∧ 1 ≤ d ∧ d ≤ monthDays (isLeap y) m then
        some ⟨y, m, d⟩
      else none
    else none
  | _ => none

/-- `date.strftime("%Y-%m-%d")`: zero-padded ISO rendering. -/
def dateISO (t : PyDate) : String :=
  padNum 4 t.y ++ "-" ++ padNum 2 t.m ++ "-" ++ padNum 2 t.d

/-- `date.weekday()`: Monday = 0. -/
def pyWeekday (t : PyDate) : Nat := (rataDie t - 1) % 7

/-- `(a - b).days`: calendar-day difference of two dates. -/
def pyDateDiff (a b : PyDate) : Int := (rataDie a : Int) - (rataDie b : Int)

/-! ## Data model -/

/-- One row of `Clean_flight_data.csv` after the load-time normalization
(`days_left` coerced to integer, `class` capitalized).  The `class` column
is `fclass` (`class` is a Lean keyword). -/
structure FlightRecord where
  airline : String
  source_city : String
  destination_city : String
  departure_time : String
  arrival_time : String
  stops : Nat
  fclass : String
  days_left : Int
  price : ℚ
deriving DecidableEq, Repr

/-- The feature vector handed to both regressors (`features` list of
`recommend_flights`). -/
structure Features where
  source_city : String
  destination_city : String
  airline : String
  departure_time : String
  arrival_time : String
  stops : Nat
  fclass : String
  days_left : Int
  day_of_week : Nat
  is_holiday : Nat
deriving DecidableEq, Repr

/-- One record of the list returned by `recommend_flights`
(`to_dict(orient="records")`), without the `random.choice` display columns
(`aircraft`, `depart_terminal`, `arrival_terminal`). -/
structure EnrichedFlight where
  airline : String
  source_city : String
  destination_city : String
  departure_time : String
  arrival_time : String
  stops : Nat
  fclass : String
  days_left : Int
  price : ℚ
  day_of_week : Nat
  is_holiday : Nat
  predicted_price : ℚ
  holiday : String
  airline_logo : Option String
  source_code : String
  destination_code : String
  source_airport : String
  destination_airport : String
  meals : String
  usb : String
  beverages : String
  baggage : String
deriving DecidableEq, Repr

/-- Process-wide state loaded once at startup: the dataset, the two trained
regressors (opaque collaborators), the holiday map keys, and the request
clock `date.today()`. -/
structure Ctx where
  df : List FlightRecord
  base_model : Features → ℚ
  holiday_model : Features → ℚ
  holidays : List String
  today : PyDate

/-! ## Static lookup tables -/

/-- `AIRLINE_LOGOS`. -/
def AIRLINE_LOGOS : List (String × String) :=
  [("Air India", "/static/logos/air-india.png"),
   ("Indigo", "/static/logos/indigo.png"),
   ("SpiceJet", "/static/logos/spicejet.png"),
   ("Vistara", "/static/logos/vistara.png"),
   ("GO FIRST", "/static/logos/goair.png"),
   ("AirAsia", "/static/logos/airasia.png"),
   ("Trujet", "/static/logos/truejet.png"),
   ("StarAir", "/static/logos/starair.png")]

/-- `airport_lookup`: city ↦ (code, airport name). -/
def airport_lookup : List (String × String × String) :=
  [("Mumbai", "BOM", "Chhatrapati Shivaji Maharaj International Airport"),
   ("Delhi", "IGI", "Indira Gandhi International Airport"),
   ("Chennai", "MAA", "Chennai International Airport"),
   ("Bangalore", "BLR", "Kempegowda International Airport"),
   ("Hyderabad", "HYD", "Rajiv Gandhi International Airport"),
   ("Kolkata", "CCU", "Netaji Subhash Chandra Bose International Airport")]

/-- Association-list lookup (Python `dict.get(k)`). -/
def lookupAssoc (l : List (String × String)) (k : String) : Option String :=
  (l.find? (fun p => p.1 == k)).map (fun p => p.2)

/-- `airport_lookup.get(city, {})` projected on one field, with `""` default
(`airport_lookup.get(x, {}).get("code", "")` and the `"name"` variant). -/
def airportField (city : String) (wantCode : Bool) : String :=
  match airport_lookup.find? (fun p => p.1 == city) with
  | some p => if wantCode then p.2.1 else p.2.2
  | none => ""

/-- Reverse lookup of the route handlers:
`next((city for city, info in airport_lookup.items() if info["code"] == code), code)`. -/
def codeToCity (code : String) : String :=
  match airport_lookup.find? (fun p => p.2.1 == code) with
  | some p => p.1
  | none => code

/-- `TIME_SLOT_LABELS`. -/
def TIME_SLOT_LABELS : List (String × String) :=
  [("early_morning", "Early Morning (3AM - 6AM)"),
   ("morning", "Morning (6AM - 12PM)"),
   ("afternoon", "Afternoon (12PM - 6PM)"),
   ("evening", "Evening (6PM - 8PM)"),
   ("late_night", "Late Night (12PM-3AM)"),
   ("night", "Night (8PM - 12PM)")]

/-! ## `get_time_slot` -/

/-- The `valid_labels` set of `get_time_slot`. -/
def validSlotLabels : List String :=
  ["early_morning", "morning", "afternoon", "evening", "night", "late_night"]

/-- `get_time_slot(time_str)`.  `none` models a Python `None` argument;
`if not time_str` also catches the empty string.  When the string contains
a colon and its first field parses as an integer hour, buckets are assigned
by the numeric table of the source (hours 18-23 all map to `"evening"`);
otherwise a lowercased, underscore-normalized slot name passes through, and
everything else is `"unknown"`. -/
def get_time_slot (time_str : Option String) : String :=
  match time_str with
  | none => "unknown"
  | some s =>
    if s = "" then "unknown"
    else
      let t := pyStrip s
      let normalized := pyReplaceSpaceUnderscore (pyLower t)
      let fallback := if validSlotLabels.contains normalized then normalized else "unknown"
      if t.data.contains ':' then
        match pyParseInt (pyHeadSplit t ':') with
        | some hour =>
          if 0 ≤ hour ∧ hour < 6 then "early_morning"
          else if 6 ≤ hour ∧ hour < 12 then "morning"
          else if 12 ≤ hour ∧ hour < 18 then "afternoon"
          else if 18 ≤ hour ∧ hour ≤ 23 then "evening"
          else "unknown"
        | none => fallback
      else fallback

/-! ## Query matcher -/

/-- The query-city normalization of `recommend_flights`:
`source.lower().strip().split("(")[0]`.  Note the order: the outer strip
happens before the parenthesis split, so whitespace preceding a `"("`
survives (`"Chennai (MAA)"` ↦ `"chennai "`). -/
def queryCityNorm (s : String) : String := pyHeadSplit (pyStrip (pyLower s)) '('

/-- The row predicate of the dataset filter of `recommend_flights`
(lines 150-155): case-insensitive equality on the two cities (against the
normalized query city) and on the class, plus exact equality on
`days_left`. -/
def matchesRow (src dst fc : String) (dl : Int) (r : FlightRecord) : Bool :=
  pyLower r.source_city == pyLower (queryCityNorm src)
    && pyLower r.destination_city == pyLower (queryCityNorm dst)
    && pyLower r.fclass == pyLower fc
    && r.days_left == dl

/-- `filtered_flights`: the dataset rows selected for one query. -/
def filteredFlights (df : List FlightRecord) (src dst fc : String) (dl : Int) :
    List FlightRecord :=
  df.filter (matchesRow src dst fc dl)

/-! ## Price estimator and enrichment -/

/-- The feature vector of one matched row (`filtered_flights[features]`),
with the request-level `day_of_week` / `is_holiday` columns of
`enrich_features`. -/
def featuresOf (r : FlightRecord) (dow ih : Nat) : Features :=
  { source_city := r.source_city, destination_city := r.destination_city,
    airline := r.airline, departure_time := r.departure_time,
    arrival_time := r.arrival_time, stops := r.stops, fclass := r.fclass,
    days_left := r.days_left, day_of_week := dow, is_holiday := ih }

/-- The per-row effect of `recommend_flights` lines 162-227 on one matched
record: base prediction, conditional 75% holiday blend, 2-decimal rounding,
and the deterministic display columns. -/
def enrichOne (bm hm : Features → ℚ) (dow ih : Nat) (r : FlightRecord) :
    EnrichedFlight :=
  let feats := featuresOf r dow ih
  let base := bm feats
  let price := if ih = 1 then base + (hm feats - base) * (0.75 : ℚ) else base
  { airline := r.airline, source_city := r.source_city,
    destination_city := r.destination_city,
    departure_time := r.departure_time, arrival_time := r.arrival_time,
    stops := r.stops, fclass := r.fclass, days_left := r.days_left,
    price := r.price, day_of_week := dow, is_holiday := ih,
    predicted_price := round2 price,
    holiday := if ih = 1 then "Holiday Pricing" else "No Holiday",
    airline_logo := lookupAssoc AIRLINE_LOGOS r.airline,
    source_code := airportField r.source_city true,
    destination_code := airportField r.destination_city true,
    source_airport := airportField r.source_city false,
    destination_airport := airportField r.destination_city false,
    meals := if r.airline = "Vistara" ∨ r.airline = "Air India"
      then "Complimentary Meals" else "Buy Meals",
    usb := if r.airline = "Vistara" ∨ r.airline = "Air India" ∨ r.airline = "Indigo"
      then "Yes" else "No",
    beverages := if r.airline = "Vistara" ∨ r.airline = "Air India"
      then "Complimentary Beverages" else "Buy Onboard Beverages",
    baggage := if r.fclass = "Economy"
      then "20kg Check-in + 7kg Cabin" else "30kg Check-in + 10kg Cabin" }

/-- The feature vector read back from an output record (each enriched row
carries the exact columns that were handed to the regressors). -/
def featuresOfE (f : EnrichedFlight) : Features :=
  { source_city := f.source_city, destination_city := f.destination_city,
    airline := f.airline, departure_time := f.departure_time,
    arrival_time := f.arrival_time, stops := f.stops, fclass := f.fclass,
    days_left := f.days_left, day_of_week := f.day_of_week,
    is_holiday := f.is_holiday }

/-! ## Sorting -/

/-- The `sort_by == "best"` key: `(stops, departure_time, predicted_price)`,
ordered lexicographically (pandas compares the time strings as Python
strings, i.e. lexicographically by code point). -/
def bestKey (f : EnrichedFlight) : Lex (Nat × Lex (String × ℚ)) :=
  toLex (f.stops, toLex (f.departure_time, f.predicted_price))

/-- The default (`"cheap"`) key: `(predicted_price, days_left)`. -/
def cheapKey (f : EnrichedFlight) : Lex (ℚ × Int) :=
  toLex (f.predicted_price, f.days_left)

/-- Row order of `sort_values(by=["stops", "departure_time", "predicted_price"])`. -/
def bestRel (a b : EnrichedFlight) : Prop := bestKey a ≤ bestKey b

/-- Row order of `sort_values(by=["predicted_price", "days_left"])`. -/
def cheapRel (a b : EnrichedFlight) : Prop := cheapKey a ≤ cheapKey b

instance : DecidableRel bestRel :=
  fun a b => inferInstanceAs (Decidable (bestKey a ≤ bestKey b))

instance : DecidableRel cheapRel :=
  fun a b => inferInstanceAs (Decidable (cheapKey a ≤ cheapKey b))

instance : IsTotal EnrichedFlight bestRel := ⟨fun a b => le_total (bestKey a) (bestKey b)⟩

instance : IsTotal EnrichedFlight cheapRel := ⟨fun a b => le_total (cheapKey a) (cheapKey b)⟩

instance : IsTrans EnrichedFlight bestRel := ⟨fun _ _ _ h h2 => le_trans h h2⟩

instance : IsTrans EnrichedFlight cheapRel := ⟨fun _ _ _ h h2 => le_trans h h2⟩

/-! ## `recommend_flights` -/

/-- The successful pipeline of `recommend_flights` after the travel date
parsed and the three string arguments are present: match, enrich, price,
sort (a stable ascending sort models `sort_values`) and truncate to
`top_n`. -/
def resultList (ctx : Ctx) (src dst fc : String) (t : PyDate)
    (sort_by : String) (top_n : Nat) : List EnrichedFlight :=
  let fl := filteredFlights ctx.df src dst fc (pyDateDiff t ctx.today)
  if fl.isEmpty then []
  else
    let dow := pyWeekday t
    let ih := if ctx.holidays.contains (dateISO t) then 1 else 0
    let enriched := fl.map (enrichOne ctx.base_model ctx.holiday_model dow ih)
    (if sort_by = "best" then List.insertionSort bestRel enriched
     else List.insertionSort cheapRel enriched).take top_n

/-- `recommend_flights(source, destination, flight_class, travel_date,
holidays, sort_by, top_n)`.  A `None` travel date reaches `strptime` and
raises `TypeError` (only `ValueError` is caught); a present but unparseable
date returns `[]`; with a valid date, a `None` source, destination or class
hits `.lower()` and raises `AttributeError`. -/
def recommend_flights (ctx : Ctx)
    (source destination flight_class travel_date : Option String)
    (sort_by : String) (top_n : Nat) : Except String (List EnrichedFlight) :=
  match travel_date with
  | none => .error "TypeError: strptime() argument 1 must be str, not NoneType"
  | some td =>
    match parseDate td with
    | none => .ok []
    | some t =>
      match source, destination, flight_class with
      | some src, some dst, some fc => .ok (resultList ctx src dst fc t sort_by top_n)
      | _, _, _ => .error "AttributeError: NoneType object has no attribute lower"

/-! ## Post-filters of the `flight-details` route -/

/-- The airline allow-list filter (lines 322-325): absent or empty
parameter is skipped, otherwise the comma-split, stripped names form the
allow-list. -/
def applyAirlineFilter (param : Option String) (flights : List EnrichedFlight) :
    List EnrichedFlight :=
  match param with
  | none => flights
  | some p =>
    if p = "" then flights
    else flights.filter (fun f => ((pySplit p ',').map pyStrip).contains f.airline)

/-- The stops allow-list filter (lines 328-330): `request.args.getlist`
yields a list of strings, an empty list is skipped, and `str(f["stops"])`
is compared against it. -/
def applyStopsFilter (params : List String) (flights : List EnrichedFlight) :
    List EnrichedFlight :=
  match params with
  | [] => flights
  | _ => flights.filter (fun f => params.contains (Nat.repr f.stops))

/-! ## Facets (`get-filters` route) -/

/-- One entry of the `stops` facet. -/
structure StopFacet where
  label : String
  value : Nat
  min_price : Int
deriving DecidableEq, Repr

/-- One entry of the departure/arrival time facets. -/
structure TimeFacet where
  label : String
  value : String
deriving DecidableEq, Repr

/-- The JSON object returned by `get-filters`. -/
structure Facets where
  airlines : List String
  min_price : Int
  max_price : Int
  stops : List StopFacet
  departure_times : List TimeFacet
  arrival_times : List TimeFacet
deriving DecidableEq, Repr

/-- An HTTP outcome of `get_filters`: a JSON payload, an explicit 400
response, or an uncaught exception. -/
inductive HttpResult (α : Type) where
  | ok : α → HttpResult α
  | clientError : String → HttpResult α
  | exn : String → HttpResult α
deriving DecidableEq, Repr

/-- Python `==` between an `int` and a `str` compares across types and is
always `False`; this is the `stop == "0"` test of `get_filters`, where
`stop` is the integer stops count. -/
def pyEqNatStr (_ : Nat) (_ : String) : Bool := false

/-- Worker for `insertionOrderDedup`. -/
def dedupAux {α : Type} [DecidableEq α] : List α → List α → List α
  | [], acc => acc
  | x :: xs, acc => dedupAux xs (if x ∈ acc then acc else acc ++ [x])

/-- Distinct values in order of first appearance: the key order of a Python
`dict` built by insertion. -/
def insertionOrderDedup {α : Type} [DecidableEq α] (l : List α) : List α :=
  dedupAux l []

/-- Python string `<` (lexicographic by code point), as used by `sorted`. -/
def strLe (a b : String) : Prop := a ≤ b

instance : DecidableRel strLe := fun a b => inferInstanceAs (Decidable (a ≤ b))

instance : IsTotal String strLe := ⟨fun a b => le_total a b⟩

instance : IsTrans String strLe := ⟨fun _ _ _ h h2 => le_trans h h2⟩

/-- Python `sorted` on strings. -/
def sortedStrings (l : List String) : List String := List.insertionSort strLe l

/-- The facet object computed by `get_filters` over the recommended
flights: sorted distinct airlines, truncated global price bounds, one
stops entry per distinct stops count in order of first appearance (the
`"Non Stop"` label is dead because `stop == "0"` compares an `int` to a
`str`), and sorted distinct non-`"unknown"` time slots. -/
def buildFacets (flights : List EnrichedFlight) : Facets :=
  let prices := flights.map (fun f => f.predicted_price)
  let stopKeys := insertionOrderDedup (flights.map (fun f => f.stops))
  { airlines := sortedStrings (insertionOrderDedup (flights.map (fun f => f.airline))),
    min_price := match prices with | [] => 0 | _ => pyIntTrunc (qminList prices),
    max_price := match prices with | [] => 0 | _ => pyIntTrunc (qmaxList prices),
    stops := stopKeys.map (fun v =>
      { label := if pyEqNatStr v "0" then "Non Stop" else Nat.repr v ++ " Stop",
        value := v,
        min_price := pyIntTrunc (qminList
          ((flights.filter (fun f => f.stops == v)).map (fun f => f.predicted_price))) }),
    departure_times :=
      (sortedStrings (insertionOrderDedup
        ((flights.map (fun f => get_time_slot (some f.departure_time))).filter
          (fun sl => sl ≠ "unknown")))).map
        (fun sl => { label := (lookupAssoc TIME_SLOT_LABELS sl).getD "", value := sl }),
    arrival_times :=
      (sortedStrings (insertionOrderDedup
        ((flights.map (fun f => get_time_slot (some f.arrival_time))).filter
          (fun sl => sl ≠ "unknown")))).map
        (fun sl => { label := (lookupAssoc TIME_SLOT_LABELS sl).getD "", value := sl }) }

/-- The `get-filters` route: airport-code extraction, the explicit 400 on a
missing (or empty: `if not travel_date`) date, reverse city lookup, the
shared recommendation pipeline, and the facet summary. -/
def get_filters (ctx : Ctx) (source_param destination_param : String)
    (class_param : Option String) (date_param : Option String)
    (sort_by : String) : HttpResult Facets :=
  let source_code := pyStrip (pyHeadSplit source_param '(')
  let destination_code := pyStrip (pyHeadSplit destination_param '(')
  match date_param with
  | none => .clientError "Missing travel date"
  | some td =>
    if td = "" then .clientError "Missing travel date"
    else
      match recommend_flights ctx (some (codeToCity source_code))
          (some (codeToCity destination_code)) class_param (some td) sort_by 200 with
      | .error e => .exn e
      | .ok flights => .ok (buildFacets flights)

/-! ## Spec-side comparison definitions

These two definitions follow the specification's words, not the source;
they exist to be compared with the code-side `queryCityNorm` /
`matchesRow` and the code-side `get_time_slot`. -/

/-- The specification's city normalization: strip any parenthetical airport
code, so that `"Chennai (MAA)"` becomes `"Chennai"` (with no residual
whitespace). -/
def specStripCity (s : String) : String := pyStrip (pyHeadSplit s '(')

/-- The matching predicate as the specification states it: case-insensitive
equality on cities (parenthetical code stripped per `specStripCity`) and
class, exact equality on `days_left`. -/
def specMatches (src dst fc : String) (dl : Int) (r : FlightRecord) : Bool :=
  pyLower r.source_city == pyLower (specStripCity src)
    && pyLower r.destination_city == pyLower (specStripCity dst)
    && pyLower r.fclass == pyLower fc
    && r.days_left == dl

/-- The hour-bucket table that `get_time_slot` actually implements on
parsed `"HH:MM"` hours 0-23 (hours 18-23 all fall in `"evening"`; the
claimed `"night"` bucket for 20-23 does not exist in the code). -/
def amendedSlot (hour : Nat) : String :=
  if hour < 6 then "early_morning"
  else if hour < 12 then "morning"
  else if hour < 18 then "afternoon"
  else "evening"

/-! ## Concrete witness data -/

/-- A dataset row used by concrete witnesses. -/
def wRec : FlightRecord :=
  { airline := "Indigo", source_city := "Delhi", destination_city := "Mumbai",
    departure_time := "10:00", arrival_time := "12:00", stops := 0,
    fclass := "Economy", days_left := 8, price := mkRat 5000 1 }

/-- Witness context: one matching row, constant regressors, 2025-10-20 a
holiday, today 2025-10-12 (so the row's `days_left = 8` matches a
2025-10-20 travel date). -/
def wCtx : Ctx :=
  { df := [wRec], base_model := fun _ => mkRat 4000 1,
    holiday_model := fun _ => mkRat 5000 1,
    holidays := ["2025-10-20"], today := ⟨2025, 10, 12⟩ }

/-- The same context with an empty holiday map. -/
def wCtxN : Ctx := { wCtx with holidays := [] }

/-- Output of the holiday-date lookup on `wCtx`. -/
def wOutH : List EnrichedFlight :=
  match recommend_flights wCtx (some "Delhi") (some "Mumbai") (some "Economy")
      (some "2025-10-20") "cheap" 200 with
  | .ok l => l
  | .error _ => []

/-- Output of the non-holiday lookup on `wCtxN`. -/
def wOutN : List EnrichedFlight :=
  match recommend_flights wCtxN (some "Delhi") (some "Mumbai") (some "Economy")
      (some "2025-10-20") "cheap" 200 with
  | .ok l => l
  | .error _ => []

/-- Output of the non-holiday lookup on `wCtxN` with `sort_by = "best"`. -/
def wOutB : List EnrichedFlight :=
  match recommend_flights wCtxN (some "Delhi") (some "Mumbai") (some "Economy")
      (some "2025-10-20") "best" 200 with
  | .ok l => l
  | .error _ => []

/-- Facet summary of the `wCtxN` query, as `get_filters` computes it. -/
def wFacetsN : Facets :=
  match get_filters wCtxN "Delhi" "Mumbai" (some "Economy") (some "2025-10-20") "cheap" with
  | .ok F => F
  | _ => { airlines := [], min_price := 0, max_price := 0, stops := [],
           departure_times := [], arrival_times := [] }

/-- Context whose base model predicts the fractional price 100.5, used to
exhibit the `int()` truncation in the facet price bounds. -/
def ctxHalf : Ctx :=
  { df := [wRec], base_model := fun _ => mkRat 201 2,
    holiday_model := fun _ => mkRat 201 2,
    holidays := [], today := ⟨2025, 10, 12⟩ }

/-- Output of the lookup on `ctxHalf`. -/
def wOutHalf : List EnrichedFlight :=
  match recommend_flights ctxHalf (some "Delhi") (some "Mumbai") (some "Economy")
      (some "2025-10-20") "cheap" 200 with
  | .ok l => l
  | .error _ => []

/-- Facet summary of the `ctxHalf` query. -/
def wFacetsHalf : Facets :=
  match get_filters ctxHalf "Delhi" "Mumbai" (some "Economy") (some "2025-10-20") "cheap" with
  | .ok F => F
  | _ => { airlines := [], min_price := 0, max_price := 0, stops := [],
           departure_times := [], arrival_times := [] }

/-- A Chennai → Delhi row for the query-normalization counterexample. -/
def wRec6 : FlightRecord :=
  { airline := "Indigo", source_city := "Chennai", destination_city := "Delhi",
    departure_time := "10:00", arrival_time := "12:00", stops := 0,
    fclass := "Economy", days_left := 8, price := mkRat 5000 1 }

/-- Context around `wRec6`. -/
def wCtx6 : Ctx :=
  { df := [wRec6], base_model := fun _ => mkRat 4000 1,
    holiday_model := fun _ => mkRat 5000 1,
    holidays := [], today := ⟨2025, 10, 12⟩ }

/-- Output of the `wCtx6` lookup when the query source is the bare city
name `"Chennai"`. -/
def wOut6 : List EnrichedFlight :=
  match recommend_flights wCtx6 (some "Chennai") (some "Delhi") (some "Economy")
      (some "2025-10-20") "cheap" 200 with
  | .ok l => l
  | .error _ => []
theorem foldl_min_le_init (l : List ℚ) (a : ℚ) : l.foldl min a ≤ a := by
  induction l generalizing a with
  | nil => exact le_refl a
  | cons b t ih => exact le_trans (ih (min a b)) (min_le_left a b)

theorem foldl_min_le_mem {l : List ℚ} {x : ℚ} (hx : x ∈ l) (a : ℚ) :
    l.foldl min a ≤ x := by
  induction l generalizing a with
  | nil => cases hx
  | cons b t ih =>
    rcases List.mem_cons.mp hx with rfl | hx2
    · exact le_trans (foldl_min_le_init t (min a x)) (min_le_right a x)
    · exact ih hx2 (min a b)

theorem le_foldl_min {l : List ℚ} {a c : ℚ} (ha : c ≤ a) (h : ∀ x ∈ l, c ≤ x) :
    c ≤ l.foldl min a := by
  induction l generalizing a with
  | nil => exact ha
  | cons b t ih =>
    exact ih (le_min ha (h b (List.mem_cons_self b t))) (fun x hx => h x (List.mem_cons_of_mem b hx))

theorem init_le_foldl_max (l : List ℚ) (a : ℚ) : a ≤ l.foldl max a := by
  induction l generalizing a with
  | nil => exact le_refl a
  | cons b t ih => exact le_trans (le_max_left a b) (ih (max a b))

theorem mem_le_foldl_max {l : List ℚ} {x : ℚ} (hx : x ∈ l) (a : ℚ) :
    x ≤ l.foldl max a := by
  induction l generalizing a with
  | nil => cases hx
  | cons b t ih =>
    rcases List.mem_cons.mp hx with rfl | hx2
    · exact le_trans (le_max_right a x) (init_le_foldl_max t (max a x))
    · exact ih hx2 (max a b)

theorem mem_dedupAux {α : Type} [DecidableEq α] (l : List α) (acc : List α) (a : α) :
    a ∈ dedupAux l acc ↔ a ∈ acc ∨ a ∈ l := by
  induction l generalizing acc with
  | nil => simp [dedupAux]
  | cons x xs ih =>
    by_cases hx : x ∈ acc
    · simp only [dedupAux, if_pos hx, ih, List.mem_cons]
      constructor
      · rintro (h | h)
        · exact Or.inl h
        · exact Or.inr (Or.inr h)
      · rintro (h | rfl | h)
        · exact Or.inl h
        · exact Or.inl hx
        · exact Or.inr h
    · simp only [dedupAux, if_neg hx, ih, List.mem_append, List.mem_singleton, List.mem_cons]
      tauto

theorem nodup_dedupAux {α : Type} [DecidableEq α] (l : List α) (acc : List α)
    (hacc : acc.Nodup) : (dedupAux l acc).Nodup := by
  induction l generalizing acc with
  | nil => exact hacc
  | cons x xs ih =>
    by_cases hx : x ∈ acc
    · simpa [dedupAux, if_pos hx] using ih acc hacc
    · simp only [dedupAux, if_neg hx]
      exact ih (acc ++ [x]) (List.nodup_append.mpr ⟨hacc, List.nodup_singleton x,
        fun a ha hb => by simp at hb; subst hb; exact hx ha⟩)

theorem mem_insertionOrderDedup {α : Type} [DecidableEq α] {l : List α} {a : α} :
    a ∈ insertionOrderDedup l ↔ a ∈ l := by
  simp [insertionOrderDedup, mem_dedupAux]

theorem nodup_insertionOrderDedup {α : Type} [DecidableEq α] (l : List α) :
    (insertionOrderDedup l).Nodup :=
  nodup_dedupAux l [] List.nodup_nil

theorem qminList_le_mem {l : List ℚ} {x : ℚ} (hx : x ∈ l) : qminList l ≤ x := by
  cases l with
  | nil => cases hx
  | cons p ps =>
    rcases List.mem_cons.mp hx with rfl | hx2
    · exact foldl_min_le_init ps x
    · exact foldl_min_le_mem hx2 p

theorem qminList_nonneg {l : List ℚ} (h : ∀ x ∈ l, 0 ≤ x) : 0 ≤ qminList l := by
  cases l with
  | nil => exact le_refl 0
  | cons p ps =>
    exact le_foldl_min (h p (List.mem_cons_self p ps))
      (fun x hx => h x (List.mem_cons_of_mem p hx))

theorem mem_le_qmaxList {l : List ℚ} {x : ℚ} (hx : x ∈ l) : x ≤ qmaxList l := by
  cases l with
  | nil => cases hx
  | cons p ps =>
    rcases List.mem_cons.mp hx with rfl | hx2
    · exact init_le_foldl_max ps x
    · exact mem_le_foldl_max hx2 p

theorem pyIntTrunc_eq_floor {q : ℚ} (h : 0 ≤ q) : pyIntTrunc q = ⌊q⌋ := by
  rw [pyIntTrunc, Rat.floor_def]
  exact Int.tdiv_eq_ediv (Rat.num_nonneg.mpr h) (by positivity)

theorem pyIntTrunc_le {q : ℚ} (h : 0 ≤ q) : (pyIntTrunc q : ℚ) ≤ q := by
  rw [pyIntTrunc_eq_floor h]
  exact Int.floor_le q

theorem lt_pyIntTrunc_add_one {q : ℚ} (h : 0 ≤ q) : q < (pyIntTrunc q : ℚ) + 1 := by
  rw [pyIntTrunc_eq_floor h]
  exact Int.lt_floor_add_one q

theorem featuresOfE_enrichOne (bm hm : Features → ℚ) (dow ih : Nat) (r : FlightRecord) :
    featuresOfE (enrichOne bm hm dow ih r) = featuresOf r dow ih := rfl

theorem mem_resultList {ctx : Ctx} {src dst fc : String} {t : PyDate}
    {sb : String} {n : Nat} {f : EnrichedFlight}
    (hf : f ∈ resultList ctx src dst fc t sb n) :
    ∃ r ∈ filteredFlights ctx.df src dst fc (pyDateDiff t ctx.today),
      f = enrichOne ctx.base_model ctx.holiday_model (pyWeekday t)
        (if ctx.holidays.contains (dateISO t) then 1 else 0) r := by
  unfold resultList at hf
  by_cases hE : (filteredFlights ctx.df src dst fc (pyDateDiff t ctx.today)).isEmpty
  · rw [if_pos hE] at hf
    cases hf
  · rw [if_neg hE] at hf
    have hmem : f ∈ (filteredFlights ctx.df src dst fc (pyDateDiff t ctx.today)).map
        (enrichOne ctx.base_model ctx.holiday_model (pyWeekday t)
          (if ctx.holidays.contains (dateISO t) then 1 else 0)) := by
      have htake := (List.take_sublist n _).subset hf
      by_cases hsb : sb = "best"
      · rw [if_pos hsb] at htake
        exact (List.perm_insertionSort bestRel _).subset htake
      · rw [if_neg hsb] at htake
        exact (List.perm_insertionSort cheapRel _).subset htake
    rcases List.mem_map.mp hmem with ⟨r, hr, rfl⟩
    exact ⟨r, hr, rfl⟩

theorem recommend_ok {ctx : Ctx} {src dst fc td : String} {t : PyDate}
    {sb : String} {n : Nat} (hp : parseDate td = some t) :
    recommend_flights ctx (some src) (some dst) (some fc) (some td) sb n =
      .ok (resultList ctx src dst fc t sb n) := by
  simp [recommend_flights, hp]

theorem get_filters_ok {ctx : Ctx} {sp dp : String} {cp : Option String}
    {td sb : String} {F : Facets} {R : List EnrichedFlight}
    (hf : get_filters ctx sp dp cp (some td) sb = .ok F)
    (hr : recommend_flights ctx (some (codeToCity (pyStrip (pyHeadSplit sp '('))))
        (some (codeToCity (pyStrip (pyHeadSplit dp '(')))) cp (some td) sb 200 = .ok R) :
    F = buildFacets R := by
  by_cases htd : td = ""
  · simp [get_filters, htd] at hf
  · rw [get_filters] at hf
    simp only [if_neg htd] at hf
    rw [hr] at hf
    exact (HttpResult.ok.injEq _ _).mp hf.symm

/-- C1: on a holiday travel date (`is_holiday` is the request-level flag
computed once from the holiday map, shared by every record of the batch),
every returned record's `predicted_price` is
`round2(base + (holiday - base) * 0.75)`, where `base` and `holiday` are
the two regressors applied to that record's own feature vector. -/
theorem holiday_blend_price (ctx : Ctx) (src dst fc td sb : String) (n : Nat)
    (t : PyDate) (l : List EnrichedFlight)
    (hp : parseDate td = some t)
    (hh : ctx.holidays.contains (dateISO t) = true)
    (hr : recommend_flights ctx (some src) (some dst) (some fc) (some td) sb n = .ok l) :
    ∀ f ∈ l, f.predicted_price =
      round2 (ctx.base_model (featuresOfE f)
        + (ctx.holiday_model (featuresOfE f) - ctx.base_model (featuresOfE f)) * (0.75 : ℚ)) := by
  rw [recommend_ok hp] at hr
  replace hr := (Except.ok.injEq _ _).mp hr
  subst hr
  intro f hf
  rcases mem_resultList hf with ⟨r, hrm, rfl⟩
  rw [featuresOfE_enrichOne]
  rw [hh] at *
  simp [enrichOne, featuresOf]

/-- Witness for C1 at a concrete context. -/
theorem holiday_blend_price_witness :
    parseDate "2025-10-20" = some ⟨2025, 10, 20⟩
    ∧ wCtx.holidays.contains (dateISO ⟨2025, 10, 20⟩) = true
    ∧ recommend_flights wCtx (some "Delhi") (some "Mumbai") (some "Economy")
        (some "2025-10-20") "cheap" 200 = .ok wOutH
    ∧ ∀ f ∈ wOutH, f.predicted_price =
        round2 (wCtx.base_model (featuresOfE f)
          + (wCtx.holiday_model (featuresOfE f) - wCtx.base_model (featuresOfE f)) * (0.75 : ℚ)) :=
  ⟨rfl, rfl, rfl,
    holiday_blend_price wCtx "Delhi" "Mumbai" "Economy" "2025-10-20" "cheap" 200
      ⟨2025, 10, 20⟩ wOutH rfl rfl rfl⟩

theorem resultList_holiday_model_irrel (ctx : Ctx) (g : Features → ℚ)
    (src dst fc : String) (t : PyDate) (sb : String) (n : Nat)
    (hh : ctx.holidays.contains (dateISO t) = false) :
    resultList { ctx with holiday_model := g } src dst fc t sb n =
      resultList ctx src dst fc t sb n := by
  unfold resultList
  simp only [hh]
  have henr : enrichOne ctx.base_model g (pyWeekday t) 0 =
      enrichOne ctx.base_model ctx.holiday_model (pyWeekday t) 0 := by
    funext r
    simp [enrichOne]
  simp [henr]

/-- C2: on a non-holiday travel date, every returned record's
`predicted_price` is the rounded base prediction, and the whole result is
independent of the holiday regressor (it is never consulted). -/
theorem non_holiday_price (ctx : Ctx) (src dst fc td sb : String) (n : Nat)
    (t : PyDate) (l : List EnrichedFlight)
    (hp : parseDate td = some t)
    (hh : ctx.holidays.contains (dateISO t) = false)
    (hr : recommend_flights ctx (some src) (some dst) (some fc) (some td) sb n = .ok l) :
    (∀ f ∈ l, f.predicted_price = round2 (ctx.base_model (featuresOfE f)))
    ∧ ∀ g : Features → ℚ,
        recommend_flights { ctx with holiday_model := g }
          (some src) (some dst) (some fc) (some td) sb n = .ok l := by
  rw [recommend_ok hp] at hr
  replace hr := (Except.ok.injEq _ _).mp hr
  subst hr
  constructor
  · intro f hf
    rcases mem_resultList hf with ⟨r, hrm, rfl⟩
    rw [featuresOfE_enrichOne]
    rw [hh] at *
    simp [enrichOne, featuresOf]
  · intro g
    rw [recommend_ok hp, resultList_holiday_model_irrel ctx g src dst fc t sb n hh]

/-- Witness for C2 at a concrete context. -/
theorem non_holiday_price_witness :
    parseDate "2025-10-20" = some ⟨2025, 10, 20⟩
    ∧ wCtxN.holidays.contains (dateISO ⟨2025, 10, 20⟩) = false
    ∧ recommend_flights wCtxN (some "Delhi") (some "Mumbai") (some "Economy")
        (some "2025-10-20") "cheap" 200 = .ok wOutN
    ∧ ((∀ f ∈ wOutN, f.predicted_price = round2 (wCtxN.base_model (featuresOfE f)))
      ∧ ∀ g : Features → ℚ,
          recommend_flights { wCtxN with holiday_model := g }
            (some "Delhi") (some "Mumbai") (some "Economy")
            (some "2025-10-20") "cheap" 200 = .ok wOutN) :=
  ⟨rfl, rfl, rfl,
    non_holiday_price wCtxN "Delhi" "Mumbai" "Economy" "2025-10-20" "cheap" 200
      ⟨2025, 10, 20⟩ wOutN rfl rfl rfl⟩

theorem sorted_resultList (ctx : Ctx) (src dst fc : String) (t : PyDate)
    (sb : String) (n : Nat) :
    (sb = "best" → (resultList ctx src dst fc t sb n).Sorted bestRel)
    ∧ (sb ≠ "best" → (resultList ctx src dst fc t sb n).Sorted cheapRel) := by
  unfold resultList
  by_cases hE : (filteredFlights ctx.df src dst fc (pyDateDiff t ctx.today)).isEmpty
  · rw [if_pos hE]
    exact ⟨fun _ => List.sorted_nil, fun _ => List.sorted_nil⟩
  · rw [if_neg hE]
    constructor
    · intro hsb
      simp only [hsb, reduceIte]
      exact List.Pairwise.sublist (List.take_sublist n _) (List.sorted_insertionSort bestRel _)
    · intro hsb
      simp only [if_neg hsb]
      exact List.Pairwise.sublist (List.take_sublist n _) (List.sorted_insertionSort cheapRel _)

/-- C5: every successful lookup result is sorted: non-decreasing in the
lexicographic key `(stops, departure_time, predicted_price)` when
`sort_by = "best"`, and non-decreasing in `(predicted_price, days_left)`
for every other `sort_by` value. -/
theorem lookup_sorted (ctx : Ctx)
    (source destination flight_class travel_date : Option String)
    (sb : String) (n : Nat) (l : List EnrichedFlight)
    (hr : recommend_flights ctx source destination flight_class travel_date sb n = .ok l) :
    (sb = "best" → l.Sorted bestRel) ∧ (sb ≠ "best" → l.Sorted cheapRel) := by
  cases travel_date with
  | none => cases hr
  | some td =>
    cases hp : parseDate td with
    | none =>
      rw [recommend_flights, hp] at hr
      replace hr := (Except.ok.injEq _ _).mp hr
      subst hr
      exact ⟨fun _ => List.sorted_nil, fun _ => List.sorted_nil⟩
    | some t =>
      rw [recommend_flights, hp] at hr
      cases source with
      | none => cases hr
      | some src =>
        cases destination with
        | none => cases hr
        | some dst =>
          cases flight_class with
          | none => cases hr
          | some fc =>
            replace hr := (Except.ok.injEq _ _).mp hr
            subst hr
            exact sorted_resultList ctx src dst fc t sb n

/-- Witness for C5 at a concrete context (both sort modes). -/
theorem lookup_sorted_witness :
    (recommend_flights wCtxN (some "Delhi") (some "Mumbai") (some "Economy")
        (some "2025-10-20") "best" 200 = .ok wOutB
      ∧ wOutB.Sorted bestRel)
    ∧ (recommend_flights wCtxN (some "Delhi") (some "Mumbai") (some "Economy")
        (some "2025-10-20") "cheap" 200 = .ok wOutN
      ∧ wOutN.Sorted cheapRel) :=
  ⟨⟨rfl, (lookup_sorted wCtxN (some "Delhi") (some "Mumbai") (some "Economy")
      (some "2025-10-20") "best" 200 wOutB rfl).1 rfl⟩,
   ⟨rfl, (lookup_sorted wCtxN (some "Delhi") (some "Mumbai") (some "Economy")
      (some "2025-10-20") "cheap" 200 wOutN rfl).2 (by decide)⟩⟩

/-- C10: the result of a lookup with the default `top_n = 200` (the value
used by every route) never exceeds 200 records: the sorted sequence is
truncated to its first `top_n` elements. -/
theorem lookup_capped (ctx : Ctx)
    (source destination flight_class travel_date : Option String)
    (sb : String) (l : List EnrichedFlight)
    (hr : recommend_flights ctx source destination flight_class travel_date sb 200 = .ok l) :
    l.length ≤ 200 := by
  cases travel_date with
  | none => cases hr
  | some td =>
    cases hp : parseDate td with
    | none =>
      rw [recommend_flights, hp] at hr
      replace hr := (Except.ok.injEq _ _).mp hr
      subst hr
      exact Nat.zero_le 200
    | some t =>
      rw [recommend_flights, hp] at hr
      cases source with
      | none => cases hr
      | some src =>
        cases destination with
        | none => cases hr
        | some dst =>
          cases flight_class with
          | none => cases hr
          | some fc =>
            replace hr := (Except.ok.injEq _ _).mp hr
            subst hr
            unfold resultList
            by_cases hE : (filteredFlights ctx.df src dst fc (pyDateDiff t ctx.today)).isEmpty
            · rw [if_pos hE]
              exact Nat.zero_le 200
            · rw [if_neg hE]
              calc (List.take 200 _).length ≤ 200 := by
                    rw [List.length_take]
                    exact min_le_left 200 _

/-- Witness for C10 at a concrete context. -/
theorem lookup_capped_witness :
    recommend_flights wCtxN (some "Delhi") (some "Mumbai") (some "Economy")
        (some "2025-10-20") "cheap" 200 = .ok wOutN
    ∧ wOutN.length ≤ 200 :=
  ⟨rfl, lookup_capped wCtxN (some "Delhi") (some "Mumbai") (some "Economy")
      (some "2025-10-20") "cheap" wOutN rfl⟩

/-- C6 (amended): a dataset record is selected by the matcher iff the two
cities and the class agree case-insensitively — the query cities being
normalized by `queryCityNorm`, i.e. lowercased, outer-whitespace-stripped
and truncated at the first `"("` with any whitespace before the
parenthesis retained — and the record's `days_left` equals the calendar-day
difference between the parsed travel date and today. -/
theorem matcher_iff (ctx : Ctx) (src dst fc : String) (t : PyDate) (r : FlightRecord) :
    r ∈ filteredFlights ctx.df src dst fc (pyDateDiff t ctx.today) ↔
      (r ∈ ctx.df
        ∧ pyLower r.source_city = pyLower (queryCityNorm src)
        ∧ pyLower r.destination_city = pyLower (queryCityNorm dst)
        ∧ pyLower r.fclass = pyLower fc
        ∧ r.days_left = pyDateDiff t ctx.today) := by
  simp [filteredFlights, List.mem_filter, matchesRow, and_assoc]

/-- C6 counterexample: with the query city `"Chennai (MAA)"`, the
specification's predicate (parenthetical airport code stripped cleanly)
matches the `"Chennai"` record, but the code's normalization leaves the
trailing space (`"chennai "`), so the matcher selects nothing; the bare
query `"Chennai"` does select the record. -/
theorem matcher_counterexample :
    specMatches "Chennai (MAA)" "Delhi" "Economy" 8 wRec6 = true
    ∧ matchesRow "Chennai (MAA)" "Delhi" "Economy" 8 wRec6 = false
    ∧ queryCityNorm "Chennai (MAA)" = "chennai "
    ∧ pyDateDiff ⟨2025, 10, 20⟩ wCtx6.today = 8
    ∧ recommend_flights wCtx6 (some "Chennai (MAA)") (some "Delhi") (some "Economy")
        (some "2025-10-20") "cheap" 200 = .ok []
    ∧ recommend_flights wCtx6 (some "Chennai") (some "Delhi") (some "Economy")
        (some "2025-10-20") "cheap" 200 = .ok wOut6
    ∧ wOut6 ≠ [] := by
  refine ⟨by decide, by decide, by decide, by decide, rfl, rfl, by decide⟩

/-- C4 counterexample: the code maps hour 20 to `"evening"`, not the
claimed `"night"` bucket (the numeric branch never returns `"night"`). -/
theorem time_slot_counterexample :
    get_time_slot (some "20:00") = "evening" ∧ "evening" ≠ "night" := by
  refine ⟨by decide, by decide⟩

/-- C4 (amended): on `"HH:MM"` strings the buckets are `early_morning`
for 0-5, `morning` for 6-11, `afternoon` for 12-17 and `evening` for the
whole range 18-23 (`amendedSlot`); hours outside 0-23, the empty string, a
missing value and non-slot garbage give `"unknown"`. -/
theorem time_slot_table :
    (∀ h : Nat, h ≤ 23 → get_time_slot (some (padNum 2 h ++ ":30")) = amendedSlot h)
    ∧ get_time_slot none = "unknown"
    ∧ get_time_slot (some "") = "unknown"
    ∧ get_time_slot (some "24:00") = "unknown"
    ∧ get_time_slot (some "-1:00") = "unknown"
    ∧ get_time_slot (some "7pm") = "unknown"
    ∧ get_time_slot (some "Late Night") = "late_night" := by
  refine ⟨?_, by decide, by decide, by decide, by decide, by decide, by decide⟩
  decide

/-- Witness for C4's bounded quantifier at the boundary hours. -/
theorem time_slot_table_witness :
    get_time_slot (some (padNum 2 0 ++ ":30")) = amendedSlot 0
    ∧ get_time_slot (some (padNum 2 6 ++ ":30")) = amendedSlot 6
    ∧ get_time_slot (some (padNum 2 12 ++ ":30")) = amendedSlot 12
    ∧ get_time_slot (some (padNum 2 18 ++ ":30")) = amendedSlot 18
    ∧ get_time_slot (some (padNum 2 20 ++ ":30")) = amendedSlot 20
    ∧ get_time_slot (some (padNum 2 23 ++ ":30")) = amendedSlot 23 :=
  ⟨time_slot_table.1 0 (by decide), time_slot_table.1 6 (by decide),
   time_slot_table.1 12 (by decide), time_slot_table.1 18 (by decide),
   time_slot_table.1 20 (by decide), time_slot_table.1 23 (by decide)⟩

/-- C9: the airline and stops post-filters commute, and each is
idempotent, for every pair of filter parameter values and every flight
list (they are pointwise predicates, so order cannot matter). -/
theorem filters_commute_idempotent (a : Option String) (s : List String)
    (flights : List EnrichedFlight) :
    applyAirlineFilter a (applyStopsFilter s flights) =
      applyStopsFilter s (applyAirlineFilter a flights)
    ∧ applyAirlineFilter a (applyAirlineFilter a flights) = applyAirlineFilter a flights
    ∧ applyStopsFilter s (applyStopsFilter s flights) = applyStopsFilter s flights := by
  have hcomm : ∀ (p q : EnrichedFlight → Bool) (l : List EnrichedFlight),
      (l.filter p).filter q = (l.filter q).filter p := by
    intro p q l
    rw [List.filter_filter, List.filter_filter]
    exact List.filter_congr (fun x _ => Bool.and_comm (q x) (p x))
  have hidem : ∀ (p : EnrichedFlight → Bool) (l : List EnrichedFlight),
      (l.filter p).filter p = l.filter p := by
    intro p l
    rw [List.filter_filter]
    exact List.filter_congr (fun x _ => Bool.and_self (p x))
  refine ⟨?_, ?_, ?_⟩
  · cases a with
    | none =>
      cases s with
      | nil => rfl
      | cons x xs => rfl
    | some p =>
      by_cases hp : p = ""
      · subst hp
        cases s with
        | nil => rfl
        | cons x xs => rfl
      · cases s with
        | nil => simp [applyAirlineFilter, applyStopsFilter, if_neg hp]
        | cons x xs =>
          simp only [applyAirlineFilter, applyStopsFilter, if_neg hp]
          exact hcomm _ _ flights
  · cases a with
    | none => rfl
    | some p =>
      by_cases hp : p = ""
      · subst hp
        rfl
      · simp only [applyAirlineFilter, if_neg hp]
        exact hidem _ flights
  · cases s with
    | nil => rfl
    | cons x xs =>
      simp only [applyStopsFilter]
      exact hidem _ flights

/-- C3 counterexample: a missing (`None`) travel date is not degraded to an
empty result — `strptime` raises `TypeError` (only `ValueError` is
caught), and `get_filters` answers a missing or empty date with an explicit
400 error, not the zero-valued facet summary. -/
theorem validation_counterexample :
    recommend_flights wCtxN (some "Delhi") (some "Mumbai") (some "Economy")
        none "cheap" 200 =
      .error "TypeError: strptime() argument 1 must be str, not NoneType"
    ∧ recommend_flights wCtxN (some "Delhi") (some "Mumbai") none
        (some "2025-10-20") "cheap" 200 =
      .error "AttributeError: NoneType object has no attribute lower"
    ∧ get_filters wCtxN "Delhi" "Mumbai" (some "Economy") none "cheap" =
      .clientError "Missing travel date"
    ∧ get_filters wCtxN "Delhi" "Mumbai" (some "Economy") (some "") "cheap" =
      .clientError "Missing travel date" :=
  ⟨rfl, rfl, rfl, rfl⟩

theorem filteredFlights_nil_of_empty_field {ctx : Ctx} {src dst fc : String} {dl : Int}
    (h : ∀ r ∈ ctx.df, ¬(pyLower r.source_city = pyLower (queryCityNorm src)
      ∧ pyLower r.destination_city = pyLower (queryCityNorm dst)
      ∧ pyLower r.fclass = pyLower fc)) :
    filteredFlights ctx.df src dst fc dl = [] := by
  rw [filteredFlights, List.filter_eq_nil_iff]
  intro r hr hm
  rcases Bool.and_eq_true_iff.mp hm with ⟨hm3, _⟩
  rcases Bool.and_eq_true_iff.mp hm3 with ⟨hm2, hfc⟩
  rcases Bool.and_eq_true_iff.mp hm2 with ⟨hsrc, hdst⟩
  exact h r hr ⟨beq_iff_eq.mp hsrc, beq_iff_eq.mp hdst, beq_iff_eq.mp hfc⟩

theorem resultList_nil_of_empty_field {ctx : Ctx} {src dst fc : String} {t : PyDate}
    {sb : String} {n : Nat}
    (h : ∀ r ∈ ctx.df, ¬(pyLower r.source_city = pyLower (queryCityNorm src)
      ∧ pyLower r.destination_city = pyLower (queryCityNorm dst)
      ∧ pyLower r.fclass = pyLower fc)) :
    resultList ctx src dst fc t sb n = [] := by
  unfold resultList
  rw [filteredFlights_nil_of_empty_field h]
  rfl

/-- C3 (amended): malformed input that stays inside the caught exception
class degrades to empty results — a present but unparseable travel date
makes `lookup` return `[]` and `get_filters` return the all-zero facet
summary, and an empty-string source, destination or class (on a dataset
whose fields are nonempty) makes `lookup` return `[]` for every travel
date.  A `None` field, by contrast, raises (`TypeError` from `strptime`
for the date, `AttributeError` from `.lower()` otherwise), and
`get_filters` answers a missing or empty date with an explicit 400
response: see the counterexample. -/
theorem validation_degrades (ctx : Ctx) (src dst fc td sb sp dp : String) (n : Nat)
    (hne : ∀ r ∈ ctx.df, pyLower r.source_city ≠ "" ∧ pyLower r.destination_city ≠ ""
      ∧ pyLower r.fclass ≠ "") :
    (parseDate td = none →
      recommend_flights ctx (some src) (some dst) (some fc) (some td) sb n = .ok []
      ∧ (td ≠ "" → get_filters ctx sp dp (some fc) (some td) sb =
          .ok { airlines := [], min_price := 0, max_price := 0, stops := [],
                departure_times := [], arrival_times := [] }))
    ∧ recommend_flights ctx (some "") (some dst) (some fc) (some td) sb n = .ok []
    ∧ recommend_flights ctx (some src) (some "") (some fc) (some td) sb n = .ok []
    ∧ recommend_flights ctx (some src) (some dst) (some "") (some td) sb n = .ok [] := by
  have hlook : ∀ (s2 d2 c2 : String),
      (∀ r ∈ ctx.df, ¬(pyLower r.source_city = pyLower (queryCityNorm s2)
        ∧ pyLower r.destination_city = pyLower (queryCityNorm d2)
        ∧ pyLower r.fclass = pyLower c2)) →
      recommend_flights ctx (some s2) (some d2) (some c2) (some td) sb n = .ok [] := by
    intro s2 d2 c2 hno
    cases hp : parseDate td with
    | none => simp [recommend_flights, hp]
    | some t => rw [recommend_ok hp, resultList_nil_of_empty_field hno]
  refine ⟨?_, ?_, ?_, ?_⟩
  · intro hbad
    refine ⟨by simp [recommend_flights, hbad], ?_⟩
    intro htd
    simp only [get_filters, if_neg htd, recommend_flights, hbad]
    rfl
  · refine hlook "" dst fc ?_
    intro r hr hconj
    have hq : pyLower (queryCityNorm "") = "" := rfl
    rw [hq] at hconj
    exact (hne r hr).1 hconj.1
  · refine hlook src "" fc ?_
    intro r hr hconj
    have hq : pyLower (queryCityNorm "") = "" := rfl
    rw [hq] at hconj
    exact (hne r hr).2.1 hconj.2.1
  · refine hlook src dst "" ?_
    intro r hr hconj
    have hq : pyLower "" = "" := rfl
    rw [hq] at hconj
    exact (hne r hr).2.2 hconj.2.2

/-- Witness for C3's amended statement at a concrete context. -/
theorem validation_degrades_witness :
    (∀ r ∈ wCtxN.df, pyLower r.source_city ≠ "" ∧ pyLower r.destination_city ≠ ""
      ∧ pyLower r.fclass ≠ "")
    ∧ parseDate "2025-99-99" = none
    ∧ (recommend_flights wCtxN (some "Delhi") (some "Mumbai") (some "Economy")
          (some "2025-99-99") "cheap" 200 = .ok []
      ∧ ("2025-99-99" ≠ "" → get_filters wCtxN "Delhi" "Mumbai" (some "Economy")
          (some "2025-99-99") "cheap" =
            .ok { airlines := [], min_price := 0, max_price := 0, stops := [],
                  departure_times := [], arrival_times := [] }))
    ∧ recommend_flights wCtxN (some "") (some "Mumbai") (some "Economy")
        (some "2025-99-99") "cheap" 200 = .ok [] :=
  ⟨by decide, by decide,
    (validation_degrades wCtxN "Delhi" "Mumbai" "Economy" "2025-99-99" "cheap"
      "Delhi" "Mumbai" 200 (by decide)).1 (by decide),
    (validation_degrades wCtxN "Delhi" "Mumbai" "Economy" "2025-99-99" "cheap"
      "Delhi" "Mumbai" 200 (by decide)).2.1⟩

/-- C7 (amended): the facet price bounds are the toward-zero truncations
(`int(...)`) of the true minimum and maximum predicted price, so over a
nonempty result set with nonnegative prices every `predicted_price` lies
in `[min_price, max_price + 1)` — equality with `max_price` itself can
fail by the truncated fraction (see the counterexample) — and both bounds
are `0` when the result set is empty. -/
theorem facet_price_bounds (ctx : Ctx) (sp dp : String) (cp : Option String)
    (td sb : String) (F : Facets) (R : List EnrichedFlight)
    (hf : get_filters ctx sp dp cp (some td) sb = .ok F)
    (hr : recommend_flights ctx (some (codeToCity (pyStrip (pyHeadSplit sp '('))))
        (some (codeToCity (pyStrip (pyHeadSplit dp '(')))) cp (some td) sb 200 = .ok R)
    (hpos : ∀ f ∈ R, 0 ≤ f.predicted_price) :
    (R = [] → F.min_price = 0 ∧ F.max_price = 0)
    ∧ F.min_price = (match R with
        | [] => 0
        | _ => pyIntTrunc (qminList (R.map (fun f => f.predicted_price))))
    ∧ F.max_price = (match R with
        | [] => 0
        | _ => pyIntTrunc (qmaxList (R.map (fun f => f.predicted_price))))
    ∧ ∀ f ∈ R, (F.min_price : ℚ) ≤ f.predicted_price
        ∧ f.predicted_price < (F.max_price : ℚ) + 1 := by
  have hF := get_filters_ok hf hr
  subst hF
  cases R with
  | nil =>
    refine ⟨fun _ => ⟨rfl, rfl⟩, rfl, rfl, ?_⟩
    intro f hfR
    exact absurd hfR (List.not_mem_nil f)
  | cons p ps =>
    refine ⟨?_, ?_, ?_, ?_⟩
    case _ => intro h; exact nomatch h
    case _ => rfl
    case _ => rfl
    intro f hfR
    have hmem : f.predicted_price ∈ (p :: ps).map (fun g => g.predicted_price) :=
      List.mem_map_of_mem _ hfR
    have hposall : ∀ x ∈ (p :: ps).map (fun g => g.predicted_price), 0 ≤ x := by
      intro x hx
      rcases List.mem_map.mp hx with ⟨g, hg, rfl⟩
      exact hpos g hg
    have h0min : 0 ≤ qminList ((p :: ps).map (fun g => g.predicted_price)) :=
      qminList_nonneg hposall
    have h0max : 0 ≤ qmaxList ((p :: ps).map (fun g => g.predicted_price)) :=
      le_trans (hposall _ hmem) (mem_le_qmaxList hmem)
    constructor
    · exact le_trans (pyIntTrunc_le h0min) (qminList_le_mem hmem)
    · exact lt_of_le_of_lt (mem_le_qmaxList hmem) (lt_pyIntTrunc_add_one h0max)

/-- Witness for C7's amended statement at a concrete context. -/
theorem facet_price_bounds_witness :
    get_filters wCtxN "Delhi" "Mumbai" (some "Economy") (some "2025-10-20") "cheap"
      = .ok wFacetsN
    ∧ recommend_flights wCtxN (some (codeToCity (pyStrip (pyHeadSplit "Delhi" '('))))
        (some (codeToCity (pyStrip (pyHeadSplit "Mumbai" '('))))
        (some "Economy") (some "2025-10-20") "cheap" 200 = .ok wOutN
    ∧ (∀ f ∈ wOutN, 0 ≤ f.predicted_price)
    ∧ ((wOutN = [] → wFacetsN.min_price = 0 ∧ wFacetsN.max_price = 0)
      ∧ wFacetsN.min_price = (match wOutN with
          | [] => 0
          | _ => pyIntTrunc (qminList (wOutN.map (fun f => f.predicted_price))))
      ∧ wFacetsN.max_price = (match wOutN with
          | [] => 0
          | _ => pyIntTrunc (qmaxList (wOutN.map (fun f => f.predicted_price))))
      ∧ ∀ f ∈ wOutN, (wFacetsN.min_price : ℚ) ≤ f.predicted_price
          ∧ f.predicted_price < (wFacetsN.max_price : ℚ) + 1) :=
  ⟨rfl, rfl, by decide,
    facet_price_bounds wCtxN "Delhi" "Mumbai" (some "Economy") "2025-10-20" "cheap"
      wFacetsN wOutN rfl rfl (by decide)⟩

/-- C7 counterexample: with a single matched record priced 100.5, the
facet summary reports `max_price = 100` (the `int()` truncation), so the
claimed bound `predicted_price ≤ max_price` fails. -/
theorem facet_price_bounds_counterexample :
    get_filters ctxHalf "Delhi" "Mumbai" (some "Economy") (some "2025-10-20") "cheap"
      = .ok wFacetsHalf
    ∧ recommend_flights ctxHalf (some "Delhi") (some "Mumbai") (some "Economy")
        (some "2025-10-20") "cheap" 200 = .ok wOutHalf
    ∧ wOutHalf.map (fun f => f.predicted_price) = [mkRat 201 2]
    ∧ wFacetsHalf.min_price = 100
    ∧ wFacetsHalf.max_price = 100
    ∧ ¬(mkRat 201 2 ≤ ((wFacetsHalf.max_price : Int) : ℚ)) :=
  ⟨rfl, rfl, by decide, by decide, by decide, by decide⟩

/-- C8 (amended): the stops facet has exactly one entry per distinct
stops count of the result set (first-appearance order, no duplicates, no
other entries); each entry's `min_price` is the `int()` truncation of the
true minimum predicted price of that group (not the exact minimum, see
the counterexample); and every entry — including stops count 0 — is
labeled `"N Stop"`, because the `stop == "0"` test compares the integer
count to a string and never holds. -/
theorem stops_facet (ctx : Ctx) (sp dp : String) (cp : Option String)
    (td sb : String) (F : Facets) (R : List EnrichedFlight)
    (hf : get_filters ctx sp dp cp (some td) sb = .ok F)
    (hr : recommend_flights ctx (some (codeToCity (pyStrip (pyHeadSplit sp '('))))
        (some (codeToCity (pyStrip (pyHeadSplit dp '(')))) cp (some td) sb 200 = .ok R) :
    (F.stops.map StopFacet.value).Nodup
    ∧ (∀ v : Nat, v ∈ F.stops.map StopFacet.value ↔ v ∈ R.map EnrichedFlight.stops)
    ∧ ∀ e ∈ F.stops,
        e.label = Nat.repr e.value ++ " Stop"
        ∧ e.min_price = pyIntTrunc (qminList
            ((R.filter (fun f => f.stops == e.value)).map (fun f => f.predicted_price))) := by
  have hF := get_filters_ok hf hr
  subst hF
  have hmapv : (buildFacets R).stops.map StopFacet.value =
      insertionOrderDedup (R.map (fun f => f.stops)) := by
    simp [buildFacets, List.map_map, Function.comp_def]
  refine ⟨?_, ?_, ?_⟩
  · rw [hmapv]
    exact nodup_insertionOrderDedup _
  · intro v
    rw [hmapv]
    exact mem_insertionOrderDedup
  · intro e he
    rcases List.mem_map.mp he with ⟨v, hv, rfl⟩
    exact ⟨rfl, rfl⟩

/-- Witness for C8's amended statement at a concrete context. -/
theorem stops_facet_witness :
    get_filters wCtxN "Delhi" "Mumbai" (some "Economy") (some "2025-10-20") "cheap"
      = .ok wFacetsN
    ∧ recommend_flights wCtxN (some (codeToCity (pyStrip (pyHeadSplit "Delhi" '('))))
        (some (codeToCity (pyStrip (pyHeadSplit "Mumbai" '('))))
        (some "Economy") (some "2025-10-20") "cheap" 200 = .ok wOutN
    ∧ ((wFacetsN.stops.map StopFacet.value).Nodup
      ∧ (∀ v : Nat, v ∈ wFacetsN.stops.map StopFacet.value ↔
          v ∈ wOutN.map EnrichedFlight.stops)
      ∧ ∀ e ∈ wFacetsN.stops,
          e.label = Nat.repr e.value ++ " Stop"
          ∧ e.min_price = pyIntTrunc (qminList
              ((wOutN.filter (fun f => f.stops == e.value)).map
                (fun f => f.predicted_price)))) :=
  ⟨rfl, rfl,
    stops_facet wCtxN "Delhi" "Mumbai" (some "Economy") "2025-10-20" "cheap"
      wFacetsN wOutN rfl rfl⟩

/-- C8 counterexample: a direct (stops = 0) record priced 100.5 produces
the facet entry `{label := "0 Stop", min_price := 100}` — the label is
neither `"Non Stop"` nor `"Direct"`, and `min_price` is not the true group
minimum 100.5. -/
theorem stops_facet_counterexample :
    get_filters ctxHalf "Delhi" "Mumbai" (some "Economy") (some "2025-10-20") "cheap"
      = .ok wFacetsHalf
    ∧ wFacetsHalf.stops =
        [{ label := "0 Stop", value := 0, min_price := 100 }]
    ∧ wOutHalf.map (fun f => f.stops) = [0]
    ∧ (wOutHalf.filter (fun f => f.stops == 0)).map (fun f => f.predicted_price)
        = [mkRat 201 2]
    ∧ "0 Stop" ≠ "Non Stop"
    ∧ "0 Stop" ≠ "Direct"
    ∧ ((100 : Int) : ℚ) ≠ mkRat 201 2 :=
  ⟨rfl, by decide, by decide, by decide, by decide, by decide, by decide⟩
